import Mathlib

/-!
Shallow embedding of the crop-classification pipeline
(src/src/config.py, src/src/gee_fetcher.py, src/src/model_inference.py).
Machine floats are modelled as rationals; numpy arrays of fixed shape as
functions out of Fin types; Python dicts (with their insertion order) as
association lists.  External effects (Google Earth Engine queries) are
modelled as an explicit environment argument telling, for each requested
(year, month), what the provider and the extraction produced.
-/

set_option maxRecDepth 8000

namespace AgriSys

/-! ### config.py : ModelConfig -/

def NUM_BANDS : ℕ := 4
def NUM_MONTHS : ℕ := 6
def NUM_CHANNELS : ℕ := NUM_BANDS * NUM_MONTHS
def CLASS_NAMES : List String := ["Other", "Rice", "Wheat"]
def HIGH_CONFIDENCE_THRESHOLD : ℚ := 85/100
def MEDIUM_CONFIDENCE_THRESHOLD : ℚ := 70/100
def MIN_MONTHS_FOR_V4 : ℕ := 5

/-- IDX_TO_CLASS of config.py : index of CLASS_NAMES. -/
def IDX_TO_CLASS (i : ℕ) : String := CLASS_NAMES.getD i ""

/-! ### config.py : TemporalConfig -/

def RICE_SEASON_MONTHS : List ℕ := [5, 6, 7, 8, 9, 10]
def WHEAT_SEASON_MONTHS : List ℕ := [11, 12, 1, 2, 3, 4]

def get_season_for_month (month : ℕ) : String :=
  if month ∈ RICE_SEASON_MONTHS then "Rice" else "Wheat"

def get_valid_crops_for_season (month : ℕ) : List String :=
  if month ∈ RICE_SEASON_MONTHS then ["Rice", "Other"] else ["Wheat", "Other"]

/-- is_crop_valid_for_season returns (is_valid, reason message). -/
def is_crop_valid_for_season (crop : String) (month : ℕ) : Bool × String :=
  let valid_crops := get_valid_crops_for_season month
  let season := get_season_for_month month
  if crop ∈ valid_crops then
    (true, crop ++ " is valid for " ++ season ++ " season")
  else
    (false, crop ++ " cannot be grown during " ++ season ++ " season")

/-- The name field of TemporalConfig.get_season_info. -/
def get_season_info_name (month : ℕ) : String :=
  if get_season_for_month month = "Rice" then "Rice (Kharif)" else "Wheat (Rabi)"

/-! ### model_inference.py : Logic Controller model selection
(CropClassifier.predict, lines 375-394).  `v4_loaded` / `v6_loaded` say
whether `self.model_v4` / `self.model_v6` is not None; `none` is the
`raise RuntimeError("No suitable model available")` branch. -/

inductive ModelChoice | V4 | V6
deriving DecidableEq, Repr

structure ModelSelection where
  model : ModelChoice
  use_mask : Bool
  /-- True exactly on the branch logging "BRAIN: V6 unavailable, falling back to V4". -/
  fallback_to_v4 : Bool
deriving DecidableEq, Repr

def select_model (months_available : ℕ) (v4_loaded v6_loaded : Bool) :
    Option ModelSelection :=
  if MIN_MONTHS_FOR_V4 ≤ months_available ∧ v4_loaded = true then
    some ⟨ModelChoice.V4, false, false⟩
  else if v6_loaded = true then
    some ⟨ModelChoice.V6, true, false⟩
  else if v4_loaded = true then
    some ⟨ModelChoice.V4, false, true⟩
  else
    none

/-! ### model_inference.py : CropClassifier._get_confidence_level -/

/-- The pair (high_thresh, med_thresh) set by the if/elif/else ladder of
_get_confidence_level. -/
def confidence_thresholds (months_available : ℕ) : ℚ × ℚ :=
  if 5 ≤ months_available then
    (HIGH_CONFIDENCE_THRESHOLD, MEDIUM_CONFIDENCE_THRESHOLD)
  else if 3 ≤ months_available then (90/100, 75/100)
  else (95/100, 80/100)

def get_confidence_level (confidence : ℚ) (months_available : ℕ) : String :=
  if (confidence_thresholds months_available).1 ≤ confidence then "high"
  else if (confidence_thresholds months_available).2 ≤ confidence then "medium"
  else "low"

/-- Rank of a confidence label under the order low < medium < high. -/
def tierRank (s : String) : ℕ :=
  if s = "high" then 2 else if s = "medium" then 1 else 0

/-! ### model_inference.py : SeasonValidator.validate_prediction -/

/-- Python max(d, key=d.get): the first key/value pair attaining the maximal
value (later ties do not replace an earlier maximum). -/
def dictArgmax : List (String × ℚ) → Option (String × ℚ)
  | [] => none
  | p :: rest =>
    match dictArgmax rest with
    | none => some p
    | some q => if p.2 < q.2 then some q else some p

/-- The fields of the dict built by validate_prediction that the claims
mention.  adjustment_reason none models the None assigned on the valid
branch; adjusted_confidence is present only on the re-ranked branch. -/
structure ValidationResult where
  original_prediction : String
  is_seasonally_valid : Bool
  final_prediction : String
  was_adjusted : Bool
  adjustment_reason : Option String
  adjusted_confidence : Option ℚ
deriving DecidableEq, Repr

/-- SeasonValidator.validate_prediction.  The Python justification strings
also quote the class names and append a formatted percentage; those
decorations are dropped here, the text kept verbatim otherwise. -/
def validate_prediction (predicted_class : String)
    (probabilities : List (String × ℚ)) (month : ℕ) : ValidationResult :=
  let valid_crops := get_valid_crops_for_season month
  let is_valid := (is_crop_valid_for_season predicted_class month).1
  if is_valid = true then
    { original_prediction := predicted_class
      is_seasonally_valid := true
      final_prediction := predicted_class
      was_adjusted := false
      adjustment_reason := none
      adjusted_confidence := none }
  else
    let valid_probs := probabilities.filter fun p => decide (p.1 ∈ valid_crops)
    match dictArgmax valid_probs with
    | some q =>
        { original_prediction := predicted_class
          is_seasonally_valid := false
          final_prediction := q.1
          was_adjusted := true
          adjustment_reason := some (predicted_class ++ " invalid for " ++
            get_season_info_name month ++ " season. Adjusted to " ++ q.1)
          adjusted_confidence := some q.2 }
    | none =>
        { original_prediction := predicted_class
          is_seasonally_valid := false
          final_prediction := "Other"
          was_adjusted := true
          adjustment_reason := some "Defaulting to Other"
          adjusted_confidence := none }

/-- The probabilities dict CropClassifier.predict always builds:
keys are IDX_TO_CLASS 0, 1, 2 in insertion order. -/
def canonical_probs (p0 p1 p2 : ℚ) : List (String × ℚ) :=
  [("Other", p0), ("Rice", p1), ("Wheat", p2)]

/-! ### model_inference.py : the tail of CropClassifier.predict
(lines 436-497), from the averaged probability vector on. -/

/-- torch.max over [p0, p1, p2]: the first index attaining the maximum. -/
def argmax3 (p0 p1 p2 : ℚ) : ℕ :=
  if p1 ≤ p0 ∧ p2 ≤ p0 then 0 else if p2 ≤ p1 then 1 else 2

/-- The fields of the result dict of predict that the claims mention. -/
structure PredictResult where
  predicted_class : String
  raw_prediction : String
  confidence : ℚ
  confidence_level : String
  was_adjusted : Bool

/-- The post-inference part of CropClassifier.predict with season
validation enabled: from avg_probs = (p0, p1, p2) (classes Other, Rice,
Wheat) to the result fields.  The Python
`validation_result.get('adjusted_confidence', probabilities.get(final_prediction, confidence))`
is the match below. -/
def predict_post (p0 p1 p2 : ℚ) (month months_available : ℕ) : PredictResult :=
  let conf0 := max p0 (max p1 p2)
  let raw := IDX_TO_CLASS (argmax3 p0 p1 p2)
  let vr := validate_prediction raw (canonical_probs p0 p1 p2) month
  let confidence : ℚ :=
    if vr.was_adjusted = true then
      match vr.adjusted_confidence with
      | some c => c
      | none => ((canonical_probs p0 p1 p2).lookup vr.final_prediction).getD conf0
    else conf0
  { predicted_class := vr.final_prediction
    raw_prediction := raw
    confidence := confidence
    confidence_level := get_confidence_level confidence months_available
    was_adjusted := vr.was_adjusted }

/-! ### gee_fetcher.py : grids and stacks
A Band Grid is the (4, 64, 64) float array for one month, a Stack the
(24, 64, 64) stacked tensor; the shapes of the numpy arrays are carried by
the Fin index types.  Grids are modelled at the target IMAGE_SIZE, i.e.
after the (identity or bilinear) resize step. -/

abbrev Grid := Fin 4 → Fin 64 → Fin 64 → ℚ
abbrev Stack := Fin 24 → Fin 64 → Fin 64 → ℚ

/-- np.max over all entries of a Band Grid. -/
def gridMax (g : Grid) : ℚ :=
  Finset.univ.sup' Finset.univ_nonempty fun p : Fin 4 × Fin 64 × Fin 64 => g p.1 p.2.1 p.2.2

/-- np.sum over all entries of a Band Grid. -/
def gridSum (g : Grid) : ℚ := ∑ p : Fin 4 × Fin 64 × Fin 64, g p.1 p.2.1 p.2.2

/-- month_data / 10000.0 followed by np.clip(month_data, 0, 1). -/
def normalizeGrid (g : Grid) : Grid := fun b i j => min (max (g b i j / 10000) 0) 1

/-- NDVI of fetch_temporal_stack lines 379-384: nir = band 3 (B8),
red = band 2 (B4), mean of (nir - red) / (nir + red + 1e-10). -/
def ndviMean (g : Grid) : ℚ :=
  (∑ i : Fin 64, ∑ j : Fin 64,
    (g 3 i j - g 2 i j) / (g 3 i j + g 2 i j + 1/10000000000)) / 4096

def zeroGrid : Grid := fun _ _ _ => 0

/-- A constant raw-reflectance grid at full scale, used as a concrete
healthy extraction result. -/
def fullGrid : Grid := fun _ _ _ => 10000

/-! ### gee_fetcher.py : GEEFetcher._image_to_array -/

/-- What the single ee sampleRectangle call of _image_to_array produced:
either the stacked band arrays or a raised exception. -/
inductive ExtractAttempt
  | ok (g : Grid)
  | err

/-- GEEFetcher._image_to_array (lines 139-171): return the sampled grid,
or an all-zero grid of shape (len(BANDS), 64, 64) when the call raised.
No other strategy is attempted and no validation happens here. -/
def image_to_array (sampleRectangle : ExtractAttempt) : Grid :=
  match sampleRectangle with
  | .ok g => g
  | .err => fun _ _ _ => 0

/-- Modelled from the spec (section 4.3 Tensor Extractor), for comparison
with image_to_array: accept an attempt only if it succeeded with a
non-zero-maximum grid, otherwise fall back. -/
def acceptAttempt (a : ExtractAttempt) (fallback : Grid) : Grid :=
  match a with
  | .ok g => if gridMax g = 0 then fallback else g
  | .err => fallback

/-- Modelled from the spec (section 4.3): three strategies tried in order
(point sampling, direct rectangular extraction, thumbnail decoding), each
validated by a non-zero-maximum check before being accepted; if all three
fail or return all-zero data, an all-zero grid results. -/
def claimExtractor (point rect thumb : ExtractAttempt) : Grid :=
  acceptAttempt point (acceptAttempt rect (acceptAttempt thumb zeroGrid))

/-! ### gee_fetcher.py : GEEFetcher._get_months_to_fetch -/

/-- The Rice entry of _get_season_month_mapping. -/
def rice_month_to_slot : ℕ → ℕ
  | 5 => 0 | 6 => 1 | 7 => 2 | 8 => 3 | 9 => 4 | 10 => 5 | _ => 0

/-- The Wheat entry of _get_season_month_mapping. -/
def wheat_month_to_slot : ℕ → ℕ
  | 11 => 0 | 12 => 1 | 1 => 2 | 2 => 3 | 3 => 4 | 4 => 5 | _ => 0

/-- Python datetime comparison: lexicographic on (year, month, day). -/
def dateLeB (y1 m1 d1 y2 m2 d2 : ℕ) : Bool :=
  decide (y1 < y2) ||
    (decide (y1 = y2) && (decide (m1 < m2) || (decide (m1 = m2) && decide (d1 ≤ d2))))

/-- The Python local season_months of the wheat branch: November and
December of the start year, January through April of the next. -/
def wheat_season_pairs (wheat_start_year : ℕ) : List (ℕ × ℕ) :=
  [(wheat_start_year, 11), (wheat_start_year, 12),
   (wheat_start_year + 1, 1), (wheat_start_year + 1, 2),
   (wheat_start_year + 1, 3), (wheat_start_year + 1, 4)]

/-- GEEFetcher._get_months_to_fetch (lines 192-236): the (year, month,
slot) triples to fetch for a query date and season.  The Python local
wheat_start_year is the inner if expression. -/
def get_months_to_fetch (qYear qMonth qDay : ℕ) (season : String) :
    List (ℕ × ℕ × ℕ) :=
  if season = "Rice" then
    (RICE_SEASON_MONTHS.filter fun m => decide (m ≤ qMonth)).map
      fun m => (qYear, m, rice_month_to_slot m)
  else
    ((wheat_season_pairs (if 11 ≤ qMonth then qYear else qYear - 1)).filter
      fun p => dateLeB p.1 p.2 15 qYear qMonth qDay).map
      fun p => (p.1, p.2, wheat_month_to_slot p.2)

/-- Chronological order at month granularity: the month (y, m) has begun
by (is not after) the query month (qy, qm). -/
def monthLe (y m qy qm : ℕ) : Bool :=
  decide (y < qy) || (decide (y = qy) && decide (m ≤ qm))

/-- Modelled from the claim C6 words: the (year, month) pairs of the
active season that are chronologically ≤ the query date, with the wheat
season spanning November-December of year N and January-April of year
N + 1, N being the query year when the query month is ≥ 11 and the query
year minus 1 otherwise. -/
def c6_claim_enumeration (qYear qMonth : ℕ) : List (ℕ × ℕ) :=
  if get_season_for_month qMonth = "Rice" then
    (RICE_SEASON_MONTHS.map fun m => (qYear, m)).filter
      fun p => monthLe p.1 p.2 qYear qMonth
  else
    (wheat_season_pairs (if 11 ≤ qMonth then qYear else qYear - 1)).filter
      fun p => monthLe p.1 p.2 qYear qMonth

/-- Modelled from the amended claim C6: rice months are those of the
season that have begun by the query month, carrying the query year and
slot month - 5; wheat months are the pairs November and December of year
N and January through April of year N + 1 (N as in the claim) whose 15th
day is not after the query date, with slots 0..5 in season order. -/
def c6_amended_enumeration (qYear qMonth qDay : ℕ) : List (ℕ × ℕ × ℕ) :=
  if qMonth ∈ RICE_SEASON_MONTHS then
    (RICE_SEASON_MONTHS.filter fun m => monthLe qYear m qYear qMonth).map
      fun m => (qYear, m, m - 5)
  else
    ((wheat_season_pairs (if 11 ≤ qMonth then qYear else qYear - 1)).filter
      fun p => dateLeB p.1 p.2 15 qYear qMonth qDay).map
      fun p => (p.1, p.2, if 11 ≤ p.2 then p.2 - 11 else p.2 + 1)

/-! ### gee_fetcher.py : GEEFetcher.fetch_temporal_stack -/

/-- What one (year, month) iteration of the fetch loop saw from the
provider: no scene under the cloud ceiling (composite None / count 0), an
exception anywhere in the try block, or an extracted month_data grid. -/
inductive MonthOutcome
  | noImages
  | fetchError
  | image (g : Grid)

/-- The loop state of fetch_temporal_stack: the 24-channel tensor, the
6-slot availability mask (a Python list of ints), and latest_month_data. -/
structure FetchState where
  image_stack : Stack
  availability_mask : Fin 6 → ℕ
  latest_month_data : Option Grid

/-- image_stack[start_channel:end_channel] = month_data with
start_channel = slot_idx * NUM_BANDS. -/
def writeSlot (st : Stack) (slot : ℕ) (g : Grid) : Stack := fun c i j =>
  if h : slot * NUM_BANDS ≤ c.val ∧ c.val < slot * NUM_BANDS + NUM_BANDS then
    g ⟨c.val - slot * NUM_BANDS, by unfold NUM_BANDS at h ⊢; omega⟩ i j
  else st c i j

/-- One iteration of the fetch loop (lines 306-374): skip when no images
or on exception; validate max/sum before and max after normalization;
place validated data in the slot and set its mask bit.  The Python local
`month_data` after scaling is written out as normalizeGrid month_data. -/
def processMonth (st : FetchState) (slot : ℕ) (out : MonthOutcome) : FetchState :=
  match out with
  | .noImages => st
  | .fetchError => st
  | .image month_data =>
    if gridMax month_data = 0 ∨ gridSum month_data = 0 then st
    else if gridMax (normalizeGrid month_data) < 1/1000 then st
    else
      { image_stack := writeSlot st.image_stack slot (normalizeGrid month_data)
        availability_mask := fun t => if t.val = slot then 1 else st.availability_mask t
        latest_month_data := some (normalizeGrid month_data) }

def fetchLoop (env : ℕ × ℕ → MonthOutcome) :
    List (ℕ × ℕ × ℕ) → FetchState → FetchState
  | [], st => st
  | (y, m, slot) :: rest, st => fetchLoop env rest (processMonth st slot (env (y, m)))

/-- np.zeros((24, 64, 64)), [0] * NUM_MONTHS, latest_month_data = None. -/
def initFetchState : FetchState :=
  { image_stack := fun _ _ _ => 0
    availability_mask := fun _ => 0
    latest_month_data := none }

/-- The fields of the result dict of fetch_temporal_stack the claims
mention. -/
structure FetchResult where
  image_stack : Stack
  availability_mask : Fin 6 → ℕ
  months_available : ℕ
  season : String
  current_ndvi : ℚ

/-- GEEFetcher.fetch_temporal_stack (lines 238-419) for an initialized
fetcher, over the provider environment env. -/
def fetch_temporal_stack (env : ℕ × ℕ → MonthOutcome)
    (qYear qMonth qDay : ℕ) : FetchResult :=
  let season := get_season_for_month qMonth
  let months_to_fetch := get_months_to_fetch qYear qMonth qDay season
  let st := fetchLoop env months_to_fetch initFetchState
  { image_stack := st.image_stack
    availability_mask := st.availability_mask
    months_available := ∑ s : Fin 6, st.availability_mask s
    season := season
    current_ndvi :=
      match st.latest_month_data with
      | some g => ndviMean g
      | none => 0 }

/-- The Band Grid occupying slot s of a Stack (channels s*4 .. s*4+3). -/
def slotGrid (st : Stack) (s : Fin 6) : Grid := fun b i j =>
  st ⟨s.val * NUM_BANDS + b.val,
    by have hs := s.isLt; have hb := b.isLt; unfold NUM_BANDS; omega⟩ i j

/-- The C4 notion of numerically all-zero extracted data: max or sum zero,
before or after normalization. -/
def allZeroData (g : Grid) : Prop :=
  gridMax g = 0 ∨ gridSum g = 0 ∨
  gridMax (normalizeGrid g) = 0 ∨ gridSum (normalizeGrid g) = 0

/-- The validation conditions under which a fetched grid is skipped
(mask bit left 0, slot untouched): the max/sum check on raw data or the
near-zero check after scaling. -/
def processSkips (g : Grid) : Prop :=
  (gridMax g = 0 ∨ gridSum g = 0) ∨ gridMax (normalizeGrid g) < 1/1000

/-- A month outcome that writes nothing: no scenes, an exception, or data
failing validation. -/
def skipOutcome (o : MonthOutcome) : Prop :=
  match o with
  | .noImages => True
  | .fetchError => True
  | .image g => processSkips g

/-- The mask invariant: mask values are bits, a 0 bit has an all-zero
slot, a 1 bit has a non-zero entry in its slot. -/
def MaskInv (st : FetchState) : Prop :=
  ∀ t : Fin 6,
    (st.availability_mask t = 0 ∨ st.availability_mask t = 1) ∧
    (st.availability_mask t = 0 → ∀ b i j, slotGrid st.image_stack t b i j = 0) ∧
    (st.availability_mask t = 1 → ∃ b i j, slotGrid st.image_stack t b i j ≠ 0)

/-- Latest-month bookkeeping: when nothing was written the mask is all
zero; when something was written, the latest grid occupies the highest
masked slot. -/
def LatestInv (st : FetchState) : Prop :=
  (st.latest_month_data = none → ∀ t, st.availability_mask t = 0) ∧
  (∀ g, st.latest_month_data = some g →
    ∃ s : Fin 6, st.availability_mask s = 1 ∧
      (∀ t : Fin 6, s < t → st.availability_mask t = 0) ∧
      (∀ b i j, slotGrid st.image_stack s b i j = g b i j))

end AgriSys

namespace AgriSys

/-! ## Helper lemmas -/

theorem gridMax_const (c : ℚ) : gridMax (fun _ _ _ => c) = c := by
  unfold gridMax
  exact Finset.sup'_const Finset.univ_nonempty c

theorem gridSum_const (c : ℚ) : gridSum (fun _ _ _ => c) = 16384 * c := by
  unfold gridSum
  have hcard : Fintype.card (Fin 4 × Fin 64 × Fin 64) = 16384 := by
    simp [Fintype.card_prod]
  rw [Finset.sum_const, nsmul_eq_mul, Finset.card_univ, hcard]
  norm_num

theorem normalizeGrid_const (c : ℚ) :
    normalizeGrid (fun _ _ _ => c) = fun _ _ _ => min (max (c / 10000) 0) 1 := rfl

/-- A grid whose maximum is at least 1/1000 has a non-zero entry. -/
theorem exists_ne_zero_of_gridMax (g : Grid) (h : 1/1000 ≤ gridMax g) :
    ∃ b i j, g b i j ≠ 0 := by
  obtain ⟨p, -, hp⟩ := Finset.exists_mem_eq_sup' Finset.univ_nonempty
    fun p : Fin 4 × Fin 64 × Fin 64 => g p.1 p.2.1 p.2.2
  refine ⟨p.1, p.2.1, p.2.2, ?_⟩
  intro h0
  rw [gridMax, hp, h0] at h
  norm_num at h

/-- Every entry of a normalized grid is non-negative. -/
theorem normalizeGrid_nonneg (g : Grid) (b : Fin 4) (i j : Fin 64) :
    0 ≤ normalizeGrid g b i j := by
  unfold normalizeGrid
  exact le_min (le_max_right _ 0) (by norm_num)

/-- A grid with all entries zero has gridMax zero. -/
theorem gridMax_eq_zero_of_all_zero (g : Grid) (h : ∀ b i j, g b i j = 0) :
    gridMax g = 0 := by
  unfold gridMax
  apply le_antisymm
  · exact Finset.sup'_le _ _ fun p _ => le_of_eq (h p.1 p.2.1 p.2.2)
  · exact le_trans (le_of_eq (h 0 0 0).symm)
      (Finset.le_sup' (f := fun p : Fin 4 × Fin 64 × Fin 64 => g p.1 p.2.1 p.2.2)
        (Finset.mem_univ (0, 0, 0)))

/-- If the sum of a normalized grid is zero then so is its maximum. -/
theorem gridMax_normalize_eq_zero_of_sum (g : Grid)
    (h : gridSum (normalizeGrid g) = 0) : gridMax (normalizeGrid g) = 0 := by
  apply gridMax_eq_zero_of_all_zero
  intro b i j
  have hall := (Finset.sum_eq_zero_iff_of_nonneg
    (fun p _ => normalizeGrid_nonneg g p.1 p.2.1 p.2.2)).mp h
  exact hall (b, i, j) (Finset.mem_univ _)

/-! ## Fetch-loop lemmas -/

theorem processMonth_noImages (st : FetchState) (slot : ℕ) :
    processMonth st slot .noImages = st := rfl

theorem processMonth_fetchError (st : FetchState) (slot : ℕ) :
    processMonth st slot .fetchError = st := rfl

theorem processMonth_image (st : FetchState) (slot : ℕ) (g : Grid) :
    processMonth st slot (.image g) =
      if gridMax g = 0 ∨ gridSum g = 0 then st
      else if gridMax (normalizeGrid g) < 1/1000 then st
      else
        { image_stack := writeSlot st.image_stack slot (normalizeGrid g)
          availability_mask := fun t => if t.val = slot then 1 else st.availability_mask t
          latest_month_data := some (normalizeGrid g) } := rfl

theorem processMonth_skip (st : FetchState) (slot : ℕ) (g : Grid)
    (h : processSkips g) : processMonth st slot (.image g) = st := by
  rw [processMonth_image]
  by_cases h0 : gridMax g = 0 ∨ gridSum g = 0
  · rw [if_pos h0]
  · rw [if_neg h0, if_pos (h.resolve_left h0)]

theorem processMonth_write (st : FetchState) (slot : ℕ) (g : Grid)
    (h1 : ¬(gridMax g = 0 ∨ gridSum g = 0))
    (h2 : ¬gridMax (normalizeGrid g) < 1/1000) :
    processMonth st slot (.image g) =
      { image_stack := writeSlot st.image_stack slot (normalizeGrid g)
        availability_mask := fun t => if t.val = slot then 1 else st.availability_mask t
        latest_month_data := some (normalizeGrid g) } := by
  rw [processMonth_image]
  rw [if_neg h1, if_neg h2]

/-- Each iteration either leaves the state unchanged or writes one slot. -/
theorem processMonth_cases (st : FetchState) (slot : ℕ) (out : MonthOutcome) :
    processMonth st slot out = st ∨
    ∃ g, out = .image g ∧ ¬(gridMax g = 0 ∨ gridSum g = 0) ∧
      ¬gridMax (normalizeGrid g) < 1/1000 ∧
      processMonth st slot out =
        { image_stack := writeSlot st.image_stack slot (normalizeGrid g)
          availability_mask := fun t => if t.val = slot then 1 else st.availability_mask t
          latest_month_data := some (normalizeGrid g) } := by
  cases out with
  | noImages => exact Or.inl rfl
  | fetchError => exact Or.inl rfl
  | image g =>
    by_cases h1 : gridMax g = 0 ∨ gridSum g = 0
    · exact Or.inl (processMonth_skip st slot g (Or.inl h1))
    · by_cases h2 : gridMax (normalizeGrid g) < 1/1000
      · exact Or.inl (processMonth_skip st slot g (Or.inr h2))
      · exact Or.inr ⟨g, rfl, h1, h2, processMonth_write st slot g h1 h2⟩

theorem slotGrid_writeSlot_ne (st : Stack) (slot : ℕ) (g : Grid) (t : Fin 6)
    (ht : t.val ≠ slot) (b : Fin 4) (i j : Fin 64) :
    slotGrid (writeSlot st slot g) t b i j = slotGrid st t b i j := by
  have hb := b.isLt
  unfold slotGrid writeSlot
  rw [dif_neg]
  simp only [NUM_BANDS]
  omega

theorem slotGrid_writeSlot_eq (st : Stack) (slot : ℕ) (g : Grid) (t : Fin 6)
    (ht : t.val = slot) (b : Fin 4) (i j : Fin 64) :
    slotGrid (writeSlot st slot g) t b i j = g b i j := by
  have hb := b.isLt
  unfold slotGrid writeSlot
  rw [dif_pos]
  · congr 1
    apply Fin.ext
    simp only [NUM_BANDS]
    omega
  · simp only [NUM_BANDS]
    omega

/-- Reading slot s of a stack at band b is reading flat channel
c = s*4 + b. -/
theorem slotGrid_apply (stk : Stack) (s : Fin 6) (b : Fin 4) (i j : Fin 64)
    (c : Fin 24) (hc : c.val = s.val * 4 + b.val) :
    slotGrid stk s b i j = stk c i j := by
  unfold slotGrid
  have hfin : (⟨s.val * NUM_BANDS + b.val,
      by have := s.isLt; have := b.isLt; unfold NUM_BANDS; omega⟩ : Fin 24) = c := by
    apply Fin.ext
    show s.val * NUM_BANDS + b.val = c.val
    unfold NUM_BANDS
    omega
  rw [hfin]

/-- If every band entry of slot s vanishes, every flat channel of
that slot vanishes. -/
theorem channel_zero_of_slot (stk : Stack) (s : Fin 6)
    (h : ∀ b i j, slotGrid stk s b i j = 0) (c : Fin 24)
    (h1 : s.val * 4 ≤ c.val) (h2 : c.val < s.val * 4 + 4) (i j : Fin 64) :
    stk c i j = 0 := by
  have hb : c.val - s.val * 4 < 4 := by omega
  rw [← slotGrid_apply stk s ⟨c.val - s.val * 4, hb⟩ i j c
    (by show c.val = s.val * 4 + (c.val - s.val * 4); omega)]
  exact h _ i j

/-- A non-zero band entry of slot s gives a non-zero flat channel in
the slot range. -/
theorem channel_ne_zero_of_slot (stk : Stack) (s : Fin 6) (b : Fin 4)
    (i j : Fin 64) (h : slotGrid stk s b i j ≠ 0) :
    ∃ c : Fin 24, s.val * 4 ≤ c.val ∧ c.val < s.val * 4 + 4 ∧
      ∃ i j, stk c i j ≠ 0 := by
  have hc24 : s.val * 4 + b.val < 24 := by
    have := s.isLt; have := b.isLt; omega
  refine ⟨⟨s.val * 4 + b.val, hc24⟩, ?_, ?_, i, j, ?_⟩
  · show s.val * 4 ≤ s.val * 4 + b.val
    omega
  · show s.val * 4 + b.val < s.val * 4 + 4
    have := b.isLt
    omega
  · rw [← slotGrid_apply stk s b i j ⟨s.val * 4 + b.val, hc24⟩ rfl]
    exact h

theorem maskInv_init : MaskInv initFetchState := by
  intro t
  refine ⟨Or.inl rfl, fun _ b i j => rfl, fun h => ?_⟩
  exact absurd h (by simp [initFetchState])

theorem maskInv_process (st : FetchState) (slot : ℕ) (out : MonthOutcome)
    (h : MaskInv st) : MaskInv (processMonth st slot out) := by
  rcases processMonth_cases st slot out with heq | ⟨g, -, -, h2, heq⟩
  · rw [heq]
    exact h
  · rw [heq]
    intro t
    by_cases ht : t.val = slot
    · refine ⟨Or.inr (by simp [ht]), fun h0 => absurd h0 (by simp [ht]), fun _ => ?_⟩
      obtain ⟨b, i, j, hb⟩ :=
        exists_ne_zero_of_gridMax (normalizeGrid g) (le_of_not_lt h2)
      refine ⟨b, i, j, ?_⟩
      show slotGrid (writeSlot st.image_stack slot (normalizeGrid g)) t b i j ≠ 0
      rw [slotGrid_writeSlot_eq st.image_stack slot (normalizeGrid g) t ht]
      exact hb
    · have hm : ((fun u : Fin 6 => if u.val = slot then 1 else st.availability_mask u) t)
          = st.availability_mask t := by simp [ht]
      refine ⟨?_, fun h0 => ?_, fun h1 => ?_⟩
      · show (if t.val = slot then 1 else st.availability_mask t) = 0 ∨
          (if t.val = slot then 1 else st.availability_mask t) = 1
        rw [if_neg ht]
        exact (h t).1
      · intro b i j
        show slotGrid (writeSlot st.image_stack slot (normalizeGrid g)) t b i j = 0
        rw [slotGrid_writeSlot_ne st.image_stack slot (normalizeGrid g) t ht]
        refine (h t).2.1 ?_ b i j
        have h0' : (if t.val = slot then 1 else st.availability_mask t) = 0 := h0
        rw [if_neg ht] at h0'
        exact h0'
      · have h1' : (if t.val = slot then 1 else st.availability_mask t) = 1 := h1
        rw [if_neg ht] at h1'
        obtain ⟨b, i, j, hb⟩ := (h t).2.2 h1'
        refine ⟨b, i, j, ?_⟩
        show slotGrid (writeSlot st.image_stack slot (normalizeGrid g)) t b i j ≠ 0
        rw [slotGrid_writeSlot_ne st.image_stack slot (normalizeGrid g) t ht]
        exact hb

theorem fetchLoop_nil (env : ℕ × ℕ → MonthOutcome) (st : FetchState) :
    fetchLoop env [] st = st := rfl

theorem fetchLoop_cons (env : ℕ × ℕ → MonthOutcome) (y m slot : ℕ)
    (rest : List (ℕ × ℕ × ℕ)) (st : FetchState) :
    fetchLoop env ((y, m, slot) :: rest) st =
      fetchLoop env rest (processMonth st slot (env (y, m))) := rfl

theorem maskInv_loop (env : ℕ × ℕ → MonthOutcome) (months : List (ℕ × ℕ × ℕ))
    (st : FetchState) (h : MaskInv st) : MaskInv (fetchLoop env months st) := by
  induction months generalizing st with
  | nil => exact h
  | cons hd tl ih =>
    obtain ⟨y, m, sl⟩ := hd
    show MaskInv (fetchLoop env tl (processMonth st sl (env (y, m))))
    exact ih _ (maskInv_process st sl (env (y, m)) h)

/-- Slots of the month list are strictly increasing in iteration order. -/
theorem months_slots_sorted (qYear qMonth qDay : ℕ) (season : String) :
    (get_months_to_fetch qYear qMonth qDay season).Pairwise
      (fun a b => a.2.2 < b.2.2) := by
  unfold get_months_to_fetch
  split_ifs
  · rw [List.pairwise_map]
    apply List.Pairwise.filter
    simp [List.pairwise_cons, RICE_SEASON_MONTHS, rice_month_to_slot]
  all_goals
    rw [List.pairwise_map]
    apply List.Pairwise.filter
    simp [wheat_season_pairs, List.pairwise_cons, wheat_month_to_slot]

/-- Every slot of the month list is in 0..5. -/
theorem months_slots_lt6 (qYear qMonth qDay : ℕ) (season : String) :
    ∀ p ∈ get_months_to_fetch qYear qMonth qDay season, p.2.2 < 6 := by
  unfold get_months_to_fetch
  split_ifs
  · intro p hp
    simp only [List.mem_map] at hp
    obtain ⟨m, hm, rfl⟩ := hp
    have hm' := List.mem_of_mem_filter hm
    simp only [RICE_SEASON_MONTHS, List.mem_cons, List.not_mem_nil, or_false] at hm'
    rcases hm' with h | h | h | h | h | h <;> subst h <;>
      simp [rice_month_to_slot]
  all_goals
    intro p hp
    simp only [List.mem_map] at hp
    obtain ⟨q, hq, rfl⟩ := hp
    have hq' := List.mem_of_mem_filter hq
    simp only [wheat_season_pairs, List.mem_cons, List.not_mem_nil, or_false] at hq'
    rcases hq' with h | h | h | h | h | h <;> subst h <;>
      simp [wheat_month_to_slot]

theorem latestInv_loop (env : ℕ × ℕ → MonthOutcome) (months : List (ℕ × ℕ × ℕ))
    (st : FetchState)
    (h01 : ∀ t, st.availability_mask t = 0 ∨ st.availability_mask t = 1)
    (hinv : LatestInv st)
    (hsort : months.Pairwise (fun a b => a.2.2 < b.2.2))
    (h6 : ∀ p ∈ months, p.2.2 < 6)
    (habove : ∀ p ∈ months, ∀ t : Fin 6, st.availability_mask t = 1 → t.val < p.2.2) :
    LatestInv (fetchLoop env months st) := by
  induction months generalizing st with
  | nil => exact hinv
  | cons hd tl ih =>
    obtain ⟨y, m, sl⟩ := hd
    rw [fetchLoop_cons]
    have hsort' := (List.pairwise_cons.mp hsort).2
    have hhd := (List.pairwise_cons.mp hsort).1
    rcases processMonth_cases st sl (env (y, m)) with heq | ⟨g, -, -, h2, heq⟩
    · rw [heq]
      exact ih st h01 hinv hsort' (fun p hp => h6 p (List.mem_cons_of_mem _ hp))
        (fun p hp => habove p (List.mem_cons_of_mem _ hp))
    · rw [heq]
      have hsl6 : sl < 6 := h6 (y, m, sl) (List.mem_cons_self _ _)
      apply ih
      · intro t
        show (if t.val = sl then 1 else st.availability_mask t) = 0 ∨
          (if t.val = sl then 1 else st.availability_mask t) = 1
        by_cases ht : t.val = sl
        · rw [if_pos ht]
          exact Or.inr rfl
        · rw [if_neg ht]
          exact h01 t
      · constructor
        · intro hn
          exact absurd hn (by simp)
        · intro g' hg'
          have hgg : normalizeGrid g = g' := Option.some.inj hg'
          refine ⟨⟨sl, hsl6⟩, ?_, ?_, ?_⟩
          · show (if (⟨sl, hsl6⟩ : Fin 6).val = sl then 1
              else st.availability_mask ⟨sl, hsl6⟩) = 1
            rw [if_pos rfl]
          · intro t hlt
            have htne : t.val ≠ sl := by
              have : sl < t.val := hlt
              omega
            show (if t.val = sl then 1 else st.availability_mask t) = 0
            rw [if_neg htne]
            rcases h01 t with h0 | h1
            · exact h0
            · exfalso
              have h3 : t.val < sl := habove (y, m, sl) (List.mem_cons_self _ _) t h1
              have hlt' : sl < t.val := hlt
              omega
          · intro b i j
            show slotGrid (writeSlot st.image_stack sl (normalizeGrid g)) ⟨sl, hsl6⟩ b i j
              = g' b i j
            rw [slotGrid_writeSlot_eq st.image_stack sl (normalizeGrid g) ⟨sl, hsl6⟩ rfl]
            rw [hgg]
      · exact hsort'
      · exact fun p hp => h6 p (List.mem_cons_of_mem _ hp)
      · intro p hp t ht
        have ht' : (if t.val = sl then 1 else st.availability_mask t) = 1 := ht
        by_cases htsl : t.val = sl
        · rw [htsl]
          exact hhd p hp
        · rw [if_neg htsl] at ht'
          exact habove p (List.mem_cons_of_mem _ hp) t ht'

end AgriSys

namespace AgriSys

/-! ## Theorems for the claims -/

/-- C3: For every call to CropClassifier.predict with
count = sum(availability_mask): if count >= 5 and the V4 model is loaded,
V4 is used with the stack alone (no mask input); if count < 5 and V6 is
loaded, V6 is used with the mask; if count < 5, V6 is not loaded and V4 is
loaded, the call falls back to V4 and flags the fallback; if neither model
is loaded, the call fails (modelled as the `none` outcome, the
RuntimeError branch). -/
theorem c3_model_selection (count : ℕ) (v4_loaded v6_loaded : Bool) :
    (MIN_MONTHS_FOR_V4 ≤ count → v4_loaded = true →
      select_model count v4_loaded v6_loaded =
        some ⟨ModelChoice.V4, false, false⟩) ∧
    (count < MIN_MONTHS_FOR_V4 → v6_loaded = true →
      select_model count v4_loaded v6_loaded =
        some ⟨ModelChoice.V6, true, false⟩) ∧
    (count < MIN_MONTHS_FOR_V4 → v6_loaded = false → v4_loaded = true →
      select_model count v4_loaded v6_loaded =
        some ⟨ModelChoice.V4, false, true⟩) ∧
    (v4_loaded = false → v6_loaded = false →
      select_model count v4_loaded v6_loaded = none) := by
  unfold select_model
  refine ⟨?_, ?_, ?_, ?_⟩
  · intro h1 h2
    rw [if_pos ⟨h1, h2⟩]
  · intro h1 h2
    rw [if_neg (by omega), if_pos h2]
  · intro h1 h2 h3
    rw [if_neg (by omega), if_neg (by simp [h2]), if_pos h3]
  · intro h1 h2
    rw [if_neg (by simp [h1]), if_neg (by simp [h2]), if_neg (by simp [h1])]

/-- C7: The confidence-tier mapping is monotonic in the availability
count: for every fixed probability p and counts c1 ≤ c2, the tier returned
by _get_confidence_level(p, c1) is at most the tier at c2 under the order
low < medium < high. -/
theorem c7_confidence_monotone (p : ℚ) (c1 c2 : ℕ) (h : c1 ≤ c2) :
    tierRank (get_confidence_level p c1) ≤ tierRank (get_confidence_level p c2) := by
  have hh1 : (confidence_thresholds c2).1 ≤ (confidence_thresholds c1).1 := by
    unfold confidence_thresholds HIGH_CONFIDENCE_THRESHOLD
    split_ifs <;> first | omega | norm_num
  have hh2 : (confidence_thresholds c2).2 ≤ (confidence_thresholds c1).2 := by
    unfold confidence_thresholds MEDIUM_CONFIDENCE_THRESHOLD
    split_ifs <;> first | omega | norm_num
  unfold get_confidence_level
  split_ifs <;> first | decide | linarith

/-- Witness for C7 at probability 9/10 and counts 2 and 6: with two months
available 9/10 earns only the medium tier (threshold 95/100), with six it
earns the high tier (threshold 85/100). -/
theorem c7_confidence_monotone_witness :
    tierRank (get_confidence_level (9/10) 2) ≤ tierRank (get_confidence_level (9/10) 6) :=
  c7_confidence_monotone (9/10) 2 6 (by norm_num)

/-- Characterization of validate_prediction on the dict shape predict
passes: exact result on the valid branch and on the two season cases of
the invalid branch. -/
theorem validate_canonical (month : ℕ) (p0 p1 p2 : ℚ) (pc : String) :
    (pc ∈ get_valid_crops_for_season month →
      validate_prediction pc (canonical_probs p0 p1 p2) month =
        ⟨pc, true, pc, false, none, none⟩) ∧
    (pc ∉ get_valid_crops_for_season month → month ∈ RICE_SEASON_MONTHS →
      validate_prediction pc (canonical_probs p0 p1 p2) month =
        if p0 < p1 then
          ⟨pc, false, "Rice", true,
            some (pc ++ " invalid for " ++ get_season_info_name month ++
              " season. Adjusted to " ++ "Rice"), some p1⟩
        else
          ⟨pc, false, "Other", true,
            some (pc ++ " invalid for " ++ get_season_info_name month ++
              " season. Adjusted to " ++ "Other"), some p0⟩) ∧
    (pc ∉ get_valid_crops_for_season month → month ∉ RICE_SEASON_MONTHS →
      validate_prediction pc (canonical_probs p0 p1 p2) month =
        if p0 < p2 then
          ⟨pc, false, "Wheat", true,
            some (pc ++ " invalid for " ++ get_season_info_name month ++
              " season. Adjusted to " ++ "Wheat"), some p2⟩
        else
          ⟨pc, false, "Other", true,
            some (pc ++ " invalid for " ++ get_season_info_name month ++
              " season. Adjusted to " ++ "Other"), some p0⟩) := by
  refine ⟨?_, ?_, ?_⟩
  · intro hv
    unfold validate_prediction is_crop_valid_for_season
    simp only [if_pos hv]
    simp
  · intro hv hm
    unfold validate_prediction is_crop_valid_for_season
    simp only [if_neg hv]
    rw [if_neg (by simp)]
    have hval : get_valid_crops_for_season month = ["Rice", "Other"] := by
      unfold get_valid_crops_for_season
      rw [if_pos hm]
    rw [hval]
    simp only [canonical_probs, List.filter]
    norm_num [dictArgmax]
    split_ifs <;> rfl
  · intro hv hm
    unfold validate_prediction is_crop_valid_for_season
    simp only [if_neg hv]
    rw [if_neg (by simp)]
    have hval : get_valid_crops_for_season month = ["Wheat", "Other"] := by
      unfold get_valid_crops_for_season
      rw [if_neg hm]
    rw [hval]
    simp only [canonical_probs, List.filter]
    norm_num [dictArgmax]
    split_ifs <;> rfl

/-- C5: For every prediction validated by
SeasonValidator.validate_prediction on the probability dict predict
builds: a raw class in the valid set for the query month passes through
unadjusted; an excluded raw class yields a final prediction inside the
valid set carrying the highest probability among the valid classes, with
was_adjusted true, a non-empty justification string, and the original
prediction recorded; and when no valid class has non-zero probability the
final prediction defaults to Other. -/
theorem c5_season_validation (month : ℕ) (p0 p1 p2 : ℚ) (pc : String) :
    (pc ∈ get_valid_crops_for_season month →
      (validate_prediction pc (canonical_probs p0 p1 p2) month).final_prediction = pc ∧
      (validate_prediction pc (canonical_probs p0 p1 p2) month).was_adjusted = false) ∧
    (pc ∉ get_valid_crops_for_season month →
      (validate_prediction pc (canonical_probs p0 p1 p2) month).final_prediction ∈
          get_valid_crops_for_season month ∧
      (validate_prediction pc (canonical_probs p0 p1 p2) month).was_adjusted = true ∧
      (∃ s, (validate_prediction pc (canonical_probs p0 p1 p2) month).adjustment_reason =
          some s ∧ s ≠ "") ∧
      (validate_prediction pc (canonical_probs p0 p1 p2) month).original_prediction = pc ∧
      (∀ q ∈ canonical_probs p0 p1 p2, q.1 ∈ get_valid_crops_for_season month →
        q.2 ≤ ((canonical_probs p0 p1 p2).lookup
          (validate_prediction pc (canonical_probs p0 p1 p2) month).final_prediction).getD 0)) ∧
    (pc ∉ get_valid_crops_for_season month →
      (∀ q ∈ canonical_probs p0 p1 p2, q.1 ∈ get_valid_crops_for_season month → q.2 = 0) →
      (validate_prediction pc (canonical_probs p0 p1 p2) month).final_prediction = "Other") := by
  obtain ⟨h1, h2, h3⟩ := validate_canonical month p0 p1 p2 pc
  refine ⟨fun hv => ?_, fun hv => ?_, fun hv hz => ?_⟩
  · rw [h1 hv]
    exact ⟨rfl, rfl⟩
  · by_cases hm : month ∈ RICE_SEASON_MONTHS
    · have hval : get_valid_crops_for_season month = ["Rice", "Other"] := by
        unfold get_valid_crops_for_season
        rw [if_pos hm]
      rw [h2 hv hm, hval]
      by_cases hp : p0 < p1
      · rw [if_pos hp]
        refine ⟨by simp, rfl, ⟨_, rfl, ?_⟩, rfl, ?_⟩
        · intro habs
          have hlen := congrArg String.length habs
          simp [String.length_append] at hlen
          exact absurd hlen.2 (by decide)
        · intro q hq hq1
          show q.2 ≤ ((canonical_probs p0 p1 p2).lookup "Rice").getD 0
          have hlk : ((canonical_probs p0 p1 p2).lookup "Rice").getD 0 = p1 := rfl
          rw [hlk]
          simp only [canonical_probs, List.mem_cons, List.not_mem_nil, or_false] at hq
          rcases hq with h | h | h <;> subst h
          · exact le_of_lt hp
          · exact le_refl p1
          · simp at hq1
      · rw [if_neg hp]
        refine ⟨by simp, rfl, ⟨_, rfl, ?_⟩, rfl, ?_⟩
        · intro habs
          have hlen := congrArg String.length habs
          simp [String.length_append] at hlen
          exact absurd hlen.2 (by decide)
        · intro q hq hq1
          show q.2 ≤ ((canonical_probs p0 p1 p2).lookup "Other").getD 0
          have hlk : ((canonical_probs p0 p1 p2).lookup "Other").getD 0 = p0 := rfl
          rw [hlk]
          simp only [canonical_probs, List.mem_cons, List.not_mem_nil, or_false] at hq
          rcases hq with h | h | h <;> subst h
          · exact le_refl p0
          · exact le_of_not_lt hp
          · simp at hq1
    · have hval : get_valid_crops_for_season month = ["Wheat", "Other"] := by
        unfold get_valid_crops_for_season
        rw [if_neg hm]
      rw [h3 hv hm, hval]
      by_cases hp : p0 < p2
      · rw [if_pos hp]
        refine ⟨by simp, rfl, ⟨_, rfl, ?_⟩, rfl, ?_⟩
        · intro habs
          have hlen := congrArg String.length habs
          simp [String.length_append] at hlen
          exact absurd hlen.2 (by decide)
        · intro q hq hq1
          show q.2 ≤ ((canonical_probs p0 p1 p2).lookup "Wheat").getD 0
          have hlk : ((canonical_probs p0 p1 p2).lookup "Wheat").getD 0 = p2 := rfl
          rw [hlk]
          simp only [canonical_probs, List.mem_cons, List.not_mem_nil, or_false] at hq
          rcases hq with h | h | h <;> subst h
          · exact le_of_lt hp
          · simp at hq1
          · exact le_refl p2
      · rw [if_neg hp]
        refine ⟨by simp, rfl, ⟨_, rfl, ?_⟩, rfl, ?_⟩
        · intro habs
          have hlen := congrArg String.length habs
          simp [String.length_append] at hlen
          exact absurd hlen.2 (by decide)
        · intro q hq hq1
          show q.2 ≤ ((canonical_probs p0 p1 p2).lookup "Other").getD 0
          have hlk : ((canonical_probs p0 p1 p2).lookup "Other").getD 0 = p0 := rfl
          rw [hlk]
          simp only [canonical_probs, List.mem_cons, List.not_mem_nil, or_false] at hq
          rcases hq with h | h | h <;> subst h
          · exact le_refl p0
          · simp at hq1
          · exact le_of_not_lt hp
  · by_cases hm : month ∈ RICE_SEASON_MONTHS
    · have hval : get_valid_crops_for_season month = ["Rice", "Other"] := by
        unfold get_valid_crops_for_season
        rw [if_pos hm]
      have hp0 : p0 = 0 := hz ("Other", p0) (by simp [canonical_probs]) (by rw [hval]; simp)
      have hp1 : p1 = 0 := hz ("Rice", p1) (by simp [canonical_probs]) (by rw [hval]; simp)
      rw [h2 hv hm, if_neg (by rw [hp0, hp1]; exact lt_irrefl 0)]
    · have hval : get_valid_crops_for_season month = ["Wheat", "Other"] := by
        unfold get_valid_crops_for_season
        rw [if_neg hm]
      have hp0 : p0 = 0 := hz ("Other", p0) (by simp [canonical_probs]) (by rw [hval]; simp)
      have hp2 : p2 = 0 := hz ("Wheat", p2) (by simp [canonical_probs]) (by rw [hval]; simp)
      rw [h3 hv hm, if_neg (by rw [hp0, hp2]; exact lt_irrefl 0)]

/-- C9: Whenever season validation adjusts the prediction, the
confidence field of the result of CropClassifier.predict is replaced by
the probability of the adjusted final class (the probability dict entry
at the final class); when no adjustment occurs the confidence is the
maximum averaged probability; and the confidence tier is always computed
from that (possibly replaced) value. -/
theorem c9_confidence_replacement (p0 p1 p2 : ℚ) (month months_available : ℕ) :
    ((predict_post p0 p1 p2 month months_available).was_adjusted = true →
      (canonical_probs p0 p1 p2).lookup
          (predict_post p0 p1 p2 month months_available).predicted_class =
        some (predict_post p0 p1 p2 month months_available).confidence) ∧
    ((predict_post p0 p1 p2 month months_available).was_adjusted = false →
      (predict_post p0 p1 p2 month months_available).confidence = max p0 (max p1 p2)) ∧
    (predict_post p0 p1 p2 month months_available).confidence_level =
      get_confidence_level (predict_post p0 p1 p2 month months_available).confidence
        months_available := by
  obtain ⟨h1, h2, h3⟩ := validate_canonical month p0 p1 p2 (IDX_TO_CLASS (argmax3 p0 p1 p2))
  simp only [predict_post]
  by_cases hv : IDX_TO_CLASS (argmax3 p0 p1 p2) ∈ get_valid_crops_for_season month
  · rw [h1 hv]
    exact ⟨fun habs => by simp at habs, fun _ => rfl, trivial⟩
  · by_cases hm : month ∈ RICE_SEASON_MONTHS
    · rw [h2 hv hm]
      by_cases hp : p0 < p1
      · rw [if_pos hp]
        exact ⟨fun _ => rfl, fun habs => by simp at habs, trivial⟩
      · rw [if_neg hp]
        exact ⟨fun _ => rfl, fun habs => by simp at habs, trivial⟩
    · rw [h3 hv hm]
      by_cases hp : p0 < p2
      · rw [if_pos hp]
        exact ⟨fun _ => rfl, fun habs => by simp at habs, trivial⟩
      · rw [if_neg hp]
        exact ⟨fun _ => rfl, fun habs => by simp at habs, trivial⟩

/-- C2: For every result of GEEFetcher.fetch_temporal_stack and every
slot s in 0..5: availability_mask[s] = 1 iff at least one value in the
slot channels 4s .. 4s+3 of image_stack is non-zero; equivalently
mask[s] = 0 implies all four of that slot bands are exactly zero, so no
slot mixes zero and non-zero contrary to its mask bit. -/
theorem c2_mask_slot_invariant (env : ℕ × ℕ → MonthOutcome)
    (qYear qMonth qDay : ℕ) (s : Fin 6) :
    ((fetch_temporal_stack env qYear qMonth qDay).availability_mask s = 1 ↔
      ∃ c : Fin 24, s.val * 4 ≤ c.val ∧ c.val < s.val * 4 + 4 ∧
        ∃ i j, (fetch_temporal_stack env qYear qMonth qDay).image_stack c i j ≠ 0) ∧
    ((fetch_temporal_stack env qYear qMonth qDay).availability_mask s = 0 →
      ∀ c : Fin 24, s.val * 4 ≤ c.val → c.val < s.val * 4 + 4 →
        ∀ i j, (fetch_temporal_stack env qYear qMonth qDay).image_stack c i j = 0) := by
  have hinv := maskInv_loop env
    (get_months_to_fetch qYear qMonth qDay (get_season_for_month qMonth))
    initFetchState maskInv_init
  set st := fetchLoop env
    (get_months_to_fetch qYear qMonth qDay (get_season_for_month qMonth))
    initFetchState with hst
  constructor
  · constructor
    · intro h1
      obtain ⟨b, i, j, hb⟩ := (hinv s).2.2 h1
      exact channel_ne_zero_of_slot st.image_stack s b i j hb
    · intro hex
      rcases (hinv s).1 with h0 | h1
      · exfalso
        obtain ⟨c, hc1, hc2, i, j, hc⟩ := hex
        exact hc (channel_zero_of_slot st.image_stack s ((hinv s).2.1 h0) c hc1 hc2 i j)
      · exact h1
  · intro h0 c h1 h2 i j
    exact channel_zero_of_slot st.image_stack s ((hinv s).2.1 h0) c h1 h2 i j

theorem processMonth_fullGrid (st : FetchState) (slot : ℕ) :
    processMonth st slot (.image fullGrid) =
      { image_stack := writeSlot st.image_stack slot (normalizeGrid fullGrid)
        availability_mask := fun t => if t.val = slot then 1 else st.availability_mask t
        latest_month_data := some (normalizeGrid fullGrid) } := by
  have hmax : gridMax fullGrid = 10000 := gridMax_const 10000
  have hsum : gridSum fullGrid = 16384 * 10000 := gridSum_const 10000
  have hnorm : normalizeGrid fullGrid = fun _ _ _ => 1 := by
    funext b i j
    unfold normalizeGrid fullGrid
    norm_num
  apply processMonth_write
  · rw [hmax, hsum]
    norm_num
  · rw [hnorm, gridMax_const]
    norm_num

/-- C1: The Stacker result is well-formed for every availability count
0 through 6: the tensor shape (24, 64, 64) is carried by the Stack type
of image_stack; months_available never exceeds 6 and every count 0..6 is
realized by some provider environment (in particular sum(mask) = 0 is a
legal, non-raising outcome, the function being total); and an all-zero
availability mask forces an entirely zero tensor. -/
theorem c1_stacker_always_wellformed :
    (∀ (env : ℕ × ℕ → MonthOutcome) (qYear qMonth qDay : ℕ),
      (fetch_temporal_stack env qYear qMonth qDay).months_available ≤ 6 ∧
      ((fetch_temporal_stack env qYear qMonth qDay).months_available = 0 →
        ∀ (c : Fin 24) (i j : Fin 64),
          (fetch_temporal_stack env qYear qMonth qDay).image_stack c i j = 0)) ∧
    (∀ k : Fin 7, ∃ (env : ℕ × ℕ → MonthOutcome) (qYear qMonth qDay : ℕ),
      (fetch_temporal_stack env qYear qMonth qDay).months_available = k.val) := by
  constructor
  · intro env qYear qMonth qDay
    have hinv := maskInv_loop env
      (get_months_to_fetch qYear qMonth qDay (get_season_for_month qMonth))
      initFetchState maskInv_init
    set st := fetchLoop env
      (get_months_to_fetch qYear qMonth qDay (get_season_for_month qMonth))
      initFetchState with hst
    constructor
    · show (∑ s : Fin 6, st.availability_mask s) ≤ 6
      calc ∑ s : Fin 6, st.availability_mask s
          ≤ ∑ _s : Fin 6, 1 := by
            apply Finset.sum_le_sum
            intro t _
            rcases (hinv t).1 with h | h <;> omega
        _ = 6 := by simp
    · intro h0 c i j
      have h0' : (∑ s : Fin 6, st.availability_mask s) = 0 := h0
      have hall := Finset.sum_eq_zero_iff.mp h0'
      show st.image_stack c i j = 0
      have hc4 : c.val / 4 < 6 := by omega
      have hmask : st.availability_mask ⟨c.val / 4, hc4⟩ = 0 :=
        hall _ (Finset.mem_univ _)
      refine channel_zero_of_slot st.image_stack ⟨c.val / 4, hc4⟩
        ((hinv _).2.1 hmask) c ?_ ?_ i j
      · show (c.val / 4) * 4 ≤ c.val
        omega
      · show c.val < (c.val / 4) * 4 + 4
        omega
  · intro k
    fin_cases k
    · refine ⟨fun _ => MonthOutcome.image fullGrid, 2023, 11, 1, ?_⟩
      unfold fetch_temporal_stack
      show (∑ s : Fin 6, (fetchLoop (fun _ => MonthOutcome.image fullGrid)
        (get_months_to_fetch 2023 11 1 (get_season_for_month 11))
        initFetchState).availability_mask s) = 0
      rw [show get_months_to_fetch 2023 11 1 (get_season_for_month 11) = [] from rfl]
      rw [fetchLoop_nil]
      decide
    · refine ⟨fun _ => MonthOutcome.image fullGrid, 2023, 5, 15, ?_⟩
      unfold fetch_temporal_stack
      show (∑ s : Fin 6, (fetchLoop (fun _ => MonthOutcome.image fullGrid)
        (get_months_to_fetch 2023 5 15 (get_season_for_month 5))
        initFetchState).availability_mask s) = 1
      rw [show get_months_to_fetch 2023 5 15 (get_season_for_month 5) =
        [(2023, 5, 0)] from rfl]
      rw [fetchLoop_cons, fetchLoop_nil]
      rw [processMonth_fullGrid]
      decide
    · refine ⟨fun _ => MonthOutcome.image fullGrid, 2023, 6, 15, ?_⟩
      unfold fetch_temporal_stack
      show (∑ s : Fin 6, (fetchLoop (fun _ => MonthOutcome.image fullGrid)
        (get_months_to_fetch 2023 6 15 (get_season_for_month 6))
        initFetchState).availability_mask s) = 2
      rw [show get_months_to_fetch 2023 6 15 (get_season_for_month 6) =
        [(2023, 5, 0), (2023, 6, 1)] from rfl]
      rw [fetchLoop_cons, fetchLoop_cons, fetchLoop_nil]
      rw [processMonth_fullGrid, processMonth_fullGrid]
      decide
    · refine ⟨fun _ => MonthOutcome.image fullGrid, 2023, 7, 15, ?_⟩
      unfold fetch_temporal_stack
      show (∑ s : Fin 6, (fetchLoop (fun _ => MonthOutcome.image fullGrid)
        (get_months_to_fetch 2023 7 15 (get_season_for_month 7))
        initFetchState).availability_mask s) = 3
      rw [show get_months_to_fetch 2023 7 15 (get_season_for_month 7) =
        [(2023, 5, 0), (2023, 6, 1), (2023, 7, 2)] from rfl]
      rw [fetchLoop_cons, fetchLoop_cons, fetchLoop_cons, fetchLoop_nil]
      rw [processMonth_fullGrid, processMonth_fullGrid, processMonth_fullGrid]
      decide
    · refine ⟨fun _ => MonthOutcome.image fullGrid, 2023, 8, 15, ?_⟩
      unfold fetch_temporal_stack
      show (∑ s : Fin 6, (fetchLoop (fun _ => MonthOutcome.image fullGrid)
        (get_months_to_fetch 2023 8 15 (get_season_for_month 8))
        initFetchState).availability_mask s) = 4
      rw [show get_months_to_fetch 2023 8 15 (get_season_for_month 8) =
        [(2023, 5, 0), (2023, 6, 1), (2023, 7, 2), (2023, 8, 3)] from rfl]
      rw [fetchLoop_cons, fetchLoop_cons, fetchLoop_cons, fetchLoop_cons, fetchLoop_nil]
      rw [processMonth_fullGrid, processMonth_fullGrid, processMonth_fullGrid,
        processMonth_fullGrid]
      decide
    · refine ⟨fun _ => MonthOutcome.image fullGrid, 2023, 9, 15, ?_⟩
      unfold fetch_temporal_stack
      show (∑ s : Fin 6, (fetchLoop (fun _ => MonthOutcome.image fullGrid)
        (get_months_to_fetch 2023 9 15 (get_season_for_month 9))
        initFetchState).availability_mask s) = 5
      rw [show get_months_to_fetch 2023 9 15 (get_season_for_month 9) =
        [(2023, 5, 0), (2023, 6, 1), (2023, 7, 2), (2023, 8, 3), (2023, 9, 4)] from rfl]
      rw [fetchLoop_cons, fetchLoop_cons, fetchLoop_cons, fetchLoop_cons, fetchLoop_cons,
        fetchLoop_nil]
      rw [processMonth_fullGrid, processMonth_fullGrid, processMonth_fullGrid,
        processMonth_fullGrid, processMonth_fullGrid]
      decide
    · refine ⟨fun _ => MonthOutcome.image fullGrid, 2023, 10, 15, ?_⟩
      unfold fetch_temporal_stack
      show (∑ s : Fin 6, (fetchLoop (fun _ => MonthOutcome.image fullGrid)
        (get_months_to_fetch 2023 10 15 (get_season_for_month 10))
        initFetchState).availability_mask s) = 6
      rw [show get_months_to_fetch 2023 10 15 (get_season_for_month 10) =
        [(2023, 5, 0), (2023, 6, 1), (2023, 7, 2), (2023, 8, 3), (2023, 9, 4),
          (2023, 10, 5)] from rfl]
      rw [fetchLoop_cons, fetchLoop_cons, fetchLoop_cons, fetchLoop_cons, fetchLoop_cons,
        fetchLoop_cons, fetchLoop_nil]
      rw [processMonth_fullGrid, processMonth_fullGrid, processMonth_fullGrid,
        processMonth_fullGrid, processMonth_fullGrid, processMonth_fullGrid]
      decide

/-- C10: When no month ends up available (mask all zero),
current_ndvi is exactly 0.0, not None and not an exception (the model is
a total function); when at least one month is available, current_ndvi is
the NDVI of the last month written in iteration order, which sits in the
available slot with the highest index. -/
theorem c10_current_ndvi (env : ℕ × ℕ → MonthOutcome) (qYear qMonth qDay : ℕ) :
    ((fetch_temporal_stack env qYear qMonth qDay).months_available = 0 →
      (fetch_temporal_stack env qYear qMonth qDay).current_ndvi = 0) ∧
    (∀ s : Fin 6,
      (fetch_temporal_stack env qYear qMonth qDay).availability_mask s = 1 →
      (∀ t : Fin 6, s < t →
        (fetch_temporal_stack env qYear qMonth qDay).availability_mask t = 0) →
      (fetch_temporal_stack env qYear qMonth qDay).current_ndvi =
        ndviMean (slotGrid (fetch_temporal_stack env qYear qMonth qDay).image_stack s)) := by
  have hli := latestInv_loop env
    (get_months_to_fetch qYear qMonth qDay (get_season_for_month qMonth))
    initFetchState (fun t => Or.inl rfl)
    ⟨fun _ t => rfl, fun g hg => absurd hg (by simp [initFetchState])⟩
    (months_slots_sorted qYear qMonth qDay (get_season_for_month qMonth))
    (months_slots_lt6 qYear qMonth qDay (get_season_for_month qMonth))
    (fun p hp t ht => absurd ht (by simp [initFetchState]))
  set st := fetchLoop env
    (get_months_to_fetch qYear qMonth qDay (get_season_for_month qMonth))
    initFetchState with hst
  constructor
  · intro h0
    have h0' : (∑ t : Fin 6, st.availability_mask t) = 0 := h0
    have hall := Finset.sum_eq_zero_iff.mp h0'
    show (match st.latest_month_data with
      | some g => ndviMean g
      | none => (0 : ℚ)) = (0 : ℚ)
    cases hl : st.latest_month_data with
    | none => rfl
    | some g =>
      obtain ⟨s, hs1, -, -⟩ := hli.2 g hl
      have := hall s (Finset.mem_univ s)
      omega
  · intro s hs1 habove
    have hs1' : st.availability_mask s = 1 := hs1
    have habove' : ∀ t : Fin 6, s < t → st.availability_mask t = 0 := habove
    show (match st.latest_month_data with
      | some g => ndviMean g
      | none => (0 : ℚ)) = ndviMean (slotGrid st.image_stack s)
    cases hl : st.latest_month_data with
    | none =>
      have := hli.1 hl s
      omega
    | some g =>
      obtain ⟨u, hu1, hu2, hu3⟩ := hli.2 g hl
      have hsu : s = u := by
        rcases lt_trichotomy s u with h | h | h
        · have := habove' u h
          omega
        · exact h
        · have := hu2 s h
          omega
      subst hsu
      have hfun : slotGrid st.image_stack s = g :=
        funext fun b => funext fun i => funext fun j => hu3 b i j
      rw [hfun]

/-- Months whose outcome writes nothing leave a slot's mask bit and
channels untouched across the whole loop. -/
theorem fetchLoop_slot_untouched (env : ℕ × ℕ → MonthOutcome)
    (months : List (ℕ × ℕ × ℕ)) (st : FetchState) (sl : ℕ)
    (h : ∀ p ∈ months, p.2.2 = sl → skipOutcome (env (p.1, p.2.1))) :
    ∀ t : Fin 6, t.val = sl →
      (fetchLoop env months st).availability_mask t = st.availability_mask t ∧
      ∀ b i j, slotGrid (fetchLoop env months st).image_stack t b i j =
        slotGrid st.image_stack t b i j := by
  induction months generalizing st with
  | nil => exact fun t ht => ⟨rfl, fun b i j => rfl⟩
  | cons hd tl ih =>
    obtain ⟨y, m, s0⟩ := hd
    rw [fetchLoop_cons]
    intro t ht
    have htl : ∀ p ∈ tl, p.2.2 = sl → skipOutcome (env (p.1, p.2.1)) :=
      fun p hp => h p (List.mem_cons_of_mem _ hp)
    by_cases hs : s0 = sl
    · have hskip : skipOutcome (env (y, m)) := h (y, m, s0) (List.mem_cons_self _ _) hs
      have heq : processMonth st s0 (env (y, m)) = st := by
        cases houtcome : env (y, m) with
        | noImages => exact processMonth_noImages st s0
        | fetchError => exact processMonth_fetchError st s0
        | image g =>
          apply processMonth_skip
          rw [houtcome] at hskip
          exact hskip
      rw [heq]
      exact ih st htl t ht
    · rcases processMonth_cases st s0 (env (y, m)) with heq | ⟨g, -, -, -, heq⟩
      · rw [heq]
        exact ih st htl t ht
      · rw [heq]
        have hih := ih { image_stack := writeSlot st.image_stack s0 (normalizeGrid g)
                         availability_mask := fun u =>
                           if u.val = s0 then 1 else st.availability_mask u
                         latest_month_data := some (normalizeGrid g) } htl t ht
        have htne : t.val ≠ s0 := by
          rw [ht]
          exact fun hc => hs hc.symm
        refine ⟨?_, ?_⟩
        · rw [hih.1]
          show (if t.val = s0 then 1 else st.availability_mask t)
            = st.availability_mask t
          rw [if_neg htne]
        · intro b i j
          rw [hih.2 b i j]
          exact slotGrid_writeSlot_ne st.image_stack s0 (normalizeGrid g) t htne b i j

/-- C4: For every month for which the provider reported scenes but
the extracted grid is numerically all-zero (max or sum zero, before or
after normalization), that slot is never marked available: its mask bit
stays 0 and its channels stay zero, while processing simply moves on to
the remaining months (the fetch function is total, no exception is
raised for this condition). -/
theorem c4_allzero_month_not_available (env : ℕ × ℕ → MonthOutcome)
    (qYear qMonth qDay y m sl : ℕ) (g : Grid)
    (hmem : (y, m, sl) ∈ get_months_to_fetch qYear qMonth qDay
      (get_season_for_month qMonth))
    (henv : env (y, m) = MonthOutcome.image g)
    (hzero : allZeroData g) :
    ∀ t : Fin 6, t.val = sl →
      (fetch_temporal_stack env qYear qMonth qDay).availability_mask t = 0 ∧
      ∀ c : Fin 24, sl * 4 ≤ c.val → c.val < sl * 4 + 4 →
        ∀ i j, (fetch_temporal_stack env qYear qMonth qDay).image_stack c i j = 0 := by
  have hps : processSkips g := by
    rcases hzero with h | h | h | h
    · exact Or.inl (Or.inl h)
    · exact Or.inl (Or.inr h)
    · refine Or.inr ?_
      rw [h]
      norm_num
    · refine Or.inr ?_
      rw [gridMax_normalize_eq_zero_of_sum g h]
      norm_num
  have hsort := months_slots_sorted qYear qMonth qDay (get_season_for_month qMonth)
  have hne : (get_months_to_fetch qYear qMonth qDay
      (get_season_for_month qMonth)).Pairwise (fun a b => a.2.2 ≠ b.2.2) :=
    hsort.imp fun h => Nat.ne_of_lt h
  have huniq : ∀ p ∈ get_months_to_fetch qYear qMonth qDay
      (get_season_for_month qMonth), p.2.2 = sl → p = (y, m, sl) := by
    intro p hp hps0
    by_contra hne0
    have hsym : Symmetric (fun a b : ℕ × ℕ × ℕ => a.2.2 ≠ b.2.2) :=
      fun a b hab => Ne.symm hab
    have hdiff := List.Pairwise.forall hsym hne hp hmem hne0
    exact hdiff (by rw [hps0])
  have hskips : ∀ p ∈ get_months_to_fetch qYear qMonth qDay
      (get_season_for_month qMonth), p.2.2 = sl →
      skipOutcome (env (p.1, p.2.1)) := by
    intro p hp hp2
    rw [huniq p hp hp2]
    show skipOutcome (env (y, m))
    rw [henv]
    exact hps
  have hloop := fetchLoop_slot_untouched env
    (get_months_to_fetch qYear qMonth qDay (get_season_for_month qMonth))
    initFetchState sl hskips
  intro t ht
  refine ⟨?_, ?_⟩
  · show (fetchLoop env (get_months_to_fetch qYear qMonth qDay
      (get_season_for_month qMonth)) initFetchState).availability_mask t = 0
    rw [(hloop t ht).1]
    rfl
  · intro c h1 h2 i j
    show (fetchLoop env (get_months_to_fetch qYear qMonth qDay
      (get_season_for_month qMonth)) initFetchState).image_stack c i j = 0
    refine channel_zero_of_slot _ t ?_ c (by omega) (by omega) i j
    intro b i' j'
    rw [(hloop t ht).2 b i' j']
    rfl

/-- Witness for C4: a May 15 2023 query whose single season month
(May, slot 0) yields scenes whose extracted grid is all-zero; the slot
stays unavailable and its channels stay zero. -/
theorem c4_allzero_witness :
    (fetch_temporal_stack (fun _ => MonthOutcome.image zeroGrid) 2023 5 15).availability_mask
        (0 : Fin 6) = 0 ∧
    (fetch_temporal_stack (fun _ => MonthOutcome.image zeroGrid) 2023 5 15).image_stack
        (0 : Fin 24) (0 : Fin 64) (0 : Fin 64) = 0 := by
  have h := c4_allzero_month_not_available (fun _ => MonthOutcome.image zeroGrid)
    2023 5 15 2023 5 0 zeroGrid (by decide) rfl (Or.inl (gridMax_const 0))
    (0 : Fin 6) rfl
  exact ⟨h.1, h.2 (0 : Fin 24) (by decide) (by decide) 0 0⟩

/-- C6 counterexample: At query date November 10 2023 the claim
enumeration (months of the active wheat season chronologically ≤ the
query date, month granularity) contains November 2023, but
_get_months_to_fetch returns the empty list: the current season month is
omitted because its mid-month (the 15th) is after the query date. -/
theorem c6_enumeration_counterexample :
    c6_claim_enumeration 2023 11 = [(2023, 11)] ∧
    get_months_to_fetch 2023 11 10 (get_season_for_month 11) = [] := by
  exact ⟨by decide, by decide⟩

/-- C6 amended: The enumeration is exactly the amended-claim list: for
rice, the season months begun by the query month with the query year and
slot month - 5; for wheat, the season pairs spanning the year boundary
(November and December carry the start year N, January through April
carry N + 1, with N the query year when the query month is ≥ 11 and the
query year minus 1 otherwise) restricted to those whose 15th day is not
after the query date.  In particular no month after the query month is
ever enumerated. -/
theorem c6_months_enumeration_amended (qYear qMonth qDay : ℕ) :
    get_months_to_fetch qYear qMonth qDay (get_season_for_month qMonth) =
      c6_amended_enumeration qYear qMonth qDay ∧
    ∀ p ∈ get_months_to_fetch qYear qMonth qDay (get_season_for_month qMonth),
      monthLe p.1 p.2.1 qYear qMonth = true := by
  constructor
  · unfold get_months_to_fetch c6_amended_enumeration get_season_for_month
    by_cases hm : qMonth ∈ RICE_SEASON_MONTHS
    · rw [if_pos hm, if_pos rfl, if_pos hm]
      have hfil : RICE_SEASON_MONTHS.filter (fun m => decide (m ≤ qMonth)) =
          RICE_SEASON_MONTHS.filter (fun m => monthLe qYear m qYear qMonth) := by
        apply List.filter_congr
        intro m _
        unfold monthLe
        simp
      rw [← hfil]
      apply List.map_congr_left
      intro m hmem
      have hmem' := List.mem_of_mem_filter hmem
      simp only [RICE_SEASON_MONTHS, List.mem_cons, List.not_mem_nil, or_false] at hmem'
      rcases hmem' with h | h | h | h | h | h <;> subst h <;> rfl
    · rw [if_neg hm, if_neg (by simp), if_neg hm]
      apply List.map_congr_left
      intro p hmem
      have hmem' := List.mem_of_mem_filter hmem
      simp only [wheat_season_pairs, List.mem_cons, List.not_mem_nil, or_false] at hmem'
      rcases hmem' with h | h | h | h | h | h <;> subst h <;> rfl
  · unfold get_months_to_fetch get_season_for_month
    by_cases hm : qMonth ∈ RICE_SEASON_MONTHS
    · rw [if_pos hm, if_pos rfl]
      intro p hp
      simp only [List.mem_map] at hp
      obtain ⟨m, hmf, rfl⟩ := hp
      have hle := (List.mem_filter.mp hmf).2
      unfold monthLe
      simp only [decide_eq_true_eq] at hle
      simp [hle]
    · rw [if_neg hm, if_neg (by simp)]
      intro p hp
      simp only [List.mem_map] at hp
      obtain ⟨q, hqf, rfl⟩ := hp
      have hle := (List.mem_filter.mp hqf).2
      unfold dateLeB at hle
      unfold monthLe
      simp only [Bool.or_eq_true, Bool.and_eq_true, decide_eq_true_eq] at hle ⊢
      omega

/-- C8 counterexample: The claimed extractor behavior (three
strategies in order, each gated by a non-zero-maximum check, first pass
wins) disagrees with _image_to_array at a concrete input: when the one
call the code actually makes raises and a thumbnail strategy would
return non-zero data, the claim predicts that non-zero grid but the code
returns the all-zero grid — there is no second or third strategy in the
code. -/
theorem c8_extractor_counterexample :
    image_to_array ExtractAttempt.err = zeroGrid ∧
    claimExtractor ExtractAttempt.err ExtractAttempt.err
      (ExtractAttempt.ok fullGrid) = fullGrid ∧
    fullGrid ≠ zeroGrid := by
  refine ⟨rfl, ?_, ?_⟩
  · show (if gridMax fullGrid = 0 then zeroGrid else fullGrid) = fullGrid
    rw [if_neg]
    rw [show gridMax fullGrid = 10000 from gridMax_const 10000]
    norm_num
  · intro h
    have h0 : (10000 : ℚ) = 0 := congrFun (congrFun (congrFun h 0) 0) 0
    norm_num at h0

/-- C8 amended: The Tensor Extractor attempts a single strategy,
direct rectangular pixel extraction: a successful sample is returned
unvalidated (even all-zero), any exception yields the all-zero grid, and
the non-zero validation happens in the caller, which never marks a month
whose extraction came back all-zero as available. -/
theorem c8_extractor_amended :
    (∀ g, image_to_array (ExtractAttempt.ok g) = g) ∧
    image_to_array ExtractAttempt.err = zeroGrid ∧
    (∀ (st : FetchState) (slot : ℕ),
      processMonth st slot (MonthOutcome.image (image_to_array ExtractAttempt.err)) = st) := by
  refine ⟨fun g => rfl, rfl, fun st slot => ?_⟩
  apply processMonth_skip
  exact Or.inl (Or.inl (gridMax_const 0))

end AgriSys
